/-
Verification of the myairzone HVAC client library.

Shallow embedding of the cache store (`src/airzone_cache.py`), the API
client (`src/client.py`), the zone validation layer
(`src/airzone_client.py` and `src/zone.py`) and the backup validator
(`src/airzone_backup.py`), together with theorems settling the spec's
testable properties.

Modelling conventions:
- JSON documents are the inductive `Json`; Python numbers are `Int` for
  identifiers and `ℚ` for temperatures (IEEE rounding is out of scope,
  the arithmetic of the algorithms is over exact rationals).
- The filesystem cache is a map from key to (mtime, document); OS-level
  failures of file operations are not modelled (the best-effort success
  paths of the source are).
- Wall-clock time is an explicit `Nat` parameter threaded through calls.
- HTTP traffic is an explicit `HttpOutcome` parameter: a status/body
  response or a transport-level exception.
-/
import Mathlib

namespace Airzone

/-- A JSON document, as produced by Python's `json` module. -/
inductive Json where
  | null : Json
  | bool (b : Bool) : Json
  | num (n : Int) : Json
  | str (s : String) : Json
  | arr (elems : List Json) : Json
  | obj (fields : List (String × Json)) : Json

/-- Python truthiness of a JSON value (`if cached_data:` in `client.py`). -/
def Json.truthy : Json → Bool
  | .null => false
  | .bool b => b
  | .num n => n != 0
  | .str s => s != ""
  | .arr elems => !elems.isEmpty
  | .obj fields => !fields.isEmpty

/-- Python `==` between a JSON value and an integer literal
(`data['systemID'] == 127` in `client.py`). -/
def Json.eqNum (j : Json) (n : Int) : Bool :=
  match j with
  | .num m => m == n
  | _ => false

/-- Python `str()` of a JSON value, as interpolated into f-strings.
(Only the integer case is exercised by the source's call sites.) -/
def Json.render : Json → String
  | .null => "None"
  | .bool b => if b then "True" else "False"
  | .num n => toString n
  | .str s => s
  | .arr _ => "[...]"
  | .obj _ => "{...}"

/-- A request body: a Python dict with string keys (insertion order kept,
keys unique at every call site). -/
abbrev ReqData := List (String × Json)

/-- Dict key lookup (`data['systemID']`); first binding wins. -/
def reqLookup : ReqData → String → Option Json
  | [], _ => none
  | (k, v) :: rest, s => if k = s then some v else reqLookup rest s

/-- Dict key membership (`'zoneID' in data`). -/
def reqMem (d : ReqData) (s : String) : Bool :=
  d.any (fun kv => kv.1 == s)

/-- Membership of a (key, integer value) pair in a request dict, used for
frozenset equality below. -/
def pairMem (kv : String × Json) (pat : List (String × Int)) : Bool :=
  pat.any (fun p => kv.1 == p.1 && kv.2.eqNum p.2)

def patMem (p : String × Int) (d : ReqData) : Bool :=
  d.any (fun kv => kv.1 == p.1 && kv.2.eqNum p.2)

/-- Equality of `frozenset(data.items())` with a literal pattern whose
values are integers (the only shape in `CACHE_KEY_PATTERNS`). -/
def itemsEq (d : ReqData) (pat : List (String × Int)) : Bool :=
  d.all (fun kv => pairMem kv pat) && pat.all (fun p => patMem p d)

/-- `AirzoneClient._generate_cache_key` (`src/client.py`).
`data` is `None` or a dict; an empty dict is falsy, like `None`, both for
the `CACHE_KEY_PATTERNS` exact match and for the dynamic patterns. -/
def generate_cache_key (endpoint : String) (data : Option ReqData) : Option String :=
  -- `frozenset(data.items()) if data else None`
  let dkey : Option ReqData :=
    match data with
    | some d => if d.isEmpty then none else some d
    | none => none
  -- exact CACHE_KEY_PATTERNS match (`src/models.py`)
  let pattern : Option String :=
    match dkey with
    | none =>
      if endpoint = "version" then some "version"
      else if endpoint = "webserver" then some "webserver"
      else none
    | some d =>
      if endpoint = "hvac" && itemsEq d [("systemID", 127)] then some "systems"
      else if endpoint = "hvac" && itemsEq d [("systemID", 0), ("zoneID", 0)] then some "zones"
      else if endpoint = "iaq" && itemsEq d [("systemID", 127)] then some "iaq_sensors"
      else none
  match pattern with
  | some k => some k
  | none =>
    -- dynamic patterns
    match dkey with
    | some d =>
      if endpoint = "hvac" then
        if reqMem d "zoneID" && reqMem d "systemID" then
          if (reqLookup d "systemID").any (fun v => v.eqNum 127) then some "systems"
          else if (reqLookup d "systemID").any (fun v => v.eqNum 0)
                  && (reqLookup d "zoneID").any (fun v => v.eqNum 0) then some "zones"
          else some ("zone_" ++ ((reqLookup d "systemID").map Json.render).getD "None"
                    ++ "_" ++ ((reqLookup d "zoneID").map Json.render).getD "None")
        else if reqMem d "systemID" then
          if (reqLookup d "systemID").any (fun v => v.eqNum 127) then some "systems"
          else some ("system_" ++ ((reqLookup d "systemID").map Json.render).getD "None")
        else none
      else if endpoint = "iaq" then
        if reqMem d "iaqsensorid" && reqMem d "systemID" then
          if (reqLookup d "systemID").any (fun v => v.eqNum 127) then some "iaq_sensors"
          else some ("iaq_sensor_" ++ ((reqLookup d "systemID").map Json.render).getD "None"
                    ++ "_" ++ ((reqLookup d "iaqsensorid").map Json.render).getD "None")
        else if reqMem d "systemID" then
          if (reqLookup d "systemID").any (fun v => v.eqNum 127) then some "iaq_sensors"
          else some ("iaq_system_" ++ ((reqLookup d "systemID").map Json.render).getD "None")
        else none
      else if endpoint = "version" || endpoint = "webserver" then some endpoint
      else none
    | none =>
      if endpoint = "version" || endpoint = "webserver" then some endpoint
      else none

/-- `AirzoneCache` (`src/airzone_cache.py`): one JSON file per key, keyed by
`{key}.json`, freshness judged by file mtime against `max_age`. The store
maps a key to the file's (mtime, contents). -/
structure AirzoneCache where
  max_age : Nat
  store : String → Option (Nat × Json)

namespace AirzoneCache

/-- `AirzoneCache.get`: absent file or an entry older than `max_age` is a
miss; otherwise the stored document is returned. -/
def get (c : AirzoneCache) (now : Nat) (key : String) : Option Json :=
  match c.store key with
  | none => none
  | some (mtime, data) =>
    if now - mtime > c.max_age then none
    else some data

/-- `AirzoneCache.set`: writes the file (mtime = now) and reports success.
(The OS-error branch returning `False` is not modelled.) -/
def set (c : AirzoneCache) (now : Nat) (key : String) (data : Json) :
    AirzoneCache × Bool :=
  ({ c with store := fun k => if k = key then some (now, data) else c.store k }, true)

/-- `AirzoneCache.invalidate`: deletes the file if present; an already
absent key is success too. -/
def invalidate (c : AirzoneCache) (key : String) : AirzoneCache × Bool :=
  match c.store key with
  | some _ =>
    ({ c with store := fun k => if k = key then none else c.store k }, true)
  | none => (c, true)

/-- `AirzoneCache.invalidate_all`: deletes every `*.json` file in the cache
directory — that is every stored entry, since each key is stored under
`{key}.json`. -/
def invalidate_all (_c : AirzoneCache) : AirzoneCache × Bool :=
  ({ max_age := _c.max_age, store := fun _ => none }, true)

end AirzoneCache

/-- HTTP method of an API call (`client.py` uses POST for queries and
PUT for mutations). -/
inductive Method where
  | post : Method
  | put : Method

/-- Outcome of the underlying `requests` call: a response with a status
code and decoded JSON body, or a transport-level exception. -/
inductive HttpOutcome where
  | response (status : Nat) (body : Json) : HttpOutcome
  | transportFailure (msg : String) : HttpOutcome

/-- The mutable state of an `AirzoneClient` relevant to caching. -/
structure ClientState where
  use_cache : Bool
  cache : AirzoneCache

/-- `AirzoneClient._make_api_call` (`src/client.py`): for POST, a fresh
cached document short-circuits the HTTP call (unless `force_refresh`); on
a 200 response the body is cached for POSTs with a derivable key; any
non-200 status or transport failure raises. -/
def make_api_call (st : ClientState) (now : Nat) (endpoint : String)
    (data : Option ReqData) (force_refresh : Bool) (method : Method)
    (http : HttpOutcome) : Except String Json × ClientState :=
  let cached : Option Json :=
    match method with
    | .put => none
    | .post =>
      if st.use_cache && !force_refresh then
        match generate_cache_key endpoint data with
        | some key =>
          match st.cache.get now key with
          | some doc => if doc.truthy then some doc else none
          | none => none
        | none => none
      else none
  match cached with
  | some doc => (.ok doc, st)
  | none =>
    match http with
    | .transportFailure msg => (.error msg, st)
    | .response status body =>
      if status = 200 then
        let st' : ClientState :=
          match method with
          | .put => st
          | .post =>
            if st.use_cache then
              match generate_cache_key endpoint data with
              | some key => { st with cache := (st.cache.set now key body).1 }
              | none => st
            else st
        (.ok body, st')
      else (.error ("Error: Status code " ++ toString status), st)

/-- Python dict merge `{"systemID": s, "zoneID": z, **parameters}`:
later bindings win, base keys keep their position. -/
def dictMerge (base extra : ReqData) : ReqData :=
  base.map (fun kv => match reqLookup extra kv.1 with
    | some v => (kv.1, v)
    | none => kv)
  ++ extra.filter (fun kv => !(reqMem base kv.1))

/-- `AirzoneClient.set_zone_parameters` (`src/client.py`): a PUT to the
`hvac` endpoint; on success the zone's key, its system's key and both
aggregates are invalidated. A raised error propagates unchanged. -/
def set_zone_parameters (st : ClientState) (now : Nat) (system_id zone_id : Int)
    (parameters : ReqData) (http : HttpOutcome) : Except String Json × ClientState :=
  let data := dictMerge [("systemID", .num system_id), ("zoneID", .num zone_id)] parameters
  match make_api_call st now "hvac" (some data) false .put http with
  | (.error e, st') => (.error e, st')
  | (.ok response, st') =>
    if st'.use_cache then
      let c1 := (st'.cache.invalidate ("zone_" ++ toString system_id ++ "_" ++ toString zone_id)).1
      let c2 := (c1.invalidate ("system_" ++ toString system_id)).1
      let c3 := (c2.invalidate "systems").1
      let c4 := (c3.invalidate "zones").1
      (.ok response, { st' with cache := c4 })
    else (.ok response, st')

/-- `AirzoneClient.set_iaq_parameters` (`src/client.py`): a PUT to the
`iaq` endpoint; on success the sensor's key, its system's key and the
aggregate are invalidated. -/
def set_iaq_parameters (st : ClientState) (now : Nat) (system_id sensor_id : Int)
    (parameters : ReqData) (http : HttpOutcome) : Except String Json × ClientState :=
  let data := dictMerge [("systemID", .num system_id), ("iaqsensorid", .num sensor_id)] parameters
  match make_api_call st now "iaq" (some data) false .put http with
  | (.error e, st') => (.error e, st')
  | (.ok response, st') =>
    if st'.use_cache then
      let c1 := (st'.cache.invalidate ("iaq_sensor_" ++ toString system_id ++ "_" ++ toString sensor_id)).1
      let c2 := (c1.invalidate ("iaq_system_" ++ toString system_id)).1
      let c3 := (c2.invalidate "iaq_sensors").1
      (.ok response, { st' with cache := c3 })
    else (.ok response, st')

/-- The validation-relevant fields of a zone's `_data` dict, each `none`
when the device did not report the key. Temperatures are rationals. -/
structure ZoneData where
  mode : Option Int := none
  modes : Option (List Int) := none
  coolmintemp : Option ℚ := none
  coolmaxtemp : Option ℚ := none
  heatmintemp : Option ℚ := none
  heatmaxtemp : Option ℚ := none
  minTemp : Option ℚ := none
  maxTemp : Option ℚ := none
  temp_step : Option ℚ := none
  speed_values : Option (List Int) := none
  speeds : Option Int := none
  setpoint : Option ℚ := none
  speed : Option Int := none
  sleep : Option Int := none

/-- Python's `%` on numbers (sign follows the divisor; for a positive
divisor the result lies in `[0, divisor)`). -/
def pyFmod (a b : ℚ) : ℚ := a - b * ⌊a / b⌋

/-- A write command delegated to `AirzoneClient.set_zone_parameters` by a
setter, with the parameter it carries. -/
inductive Write where
  | setpointW (v : ℚ) : Write
  | modeW (v : Int) : Write
  | speedW (v : Int) : Write
  | sleepW (v : Int) : Write
  deriving DecidableEq

/-- The observable outcome of running a property setter: the raised
`ValueError` message if any, the write commands issued to the client, and
the zone's `_data` snapshot afterwards. -/
structure SetOutcome where
  error : Option String
  writes : List Write
  data : ZoneData

/- `AirzoneZone` of `src/airzone_client.py` (the validation-aware
variant): validators and property setters. A successful setter issues the
write, forces a refresh (its result is the `refreshed` parameter) and
then patches the written field locally. -/
namespace airzone_client

/-- `AirzoneZone.validate_mode` (`src/airzone_client.py`). -/
def validate_mode (d : ZoneData) (mode : Int) : Bool :=
  let available_modes := d.modes.getD []
  if available_modes.isEmpty then true else available_modes.contains mode

/-- `AirzoneZone.validate_fan_speed` (`src/airzone_client.py`). -/
def validate_fan_speed (d : ZoneData) (speed : Int) : Bool :=
  let available_speeds := d.speed_values.getD []
  if !available_speeds.isEmpty then available_speeds.contains speed
  else
    match d.speeds with
    | some max_speeds => decide (0 ≤ speed ∧ speed ≤ max_speeds)
    | none => true

/-- `AirzoneZone.validate_setpoint` (`src/airzone_client.py`): bounds are
selected by the mode (cooling → `coolmintemp`/`coolmaxtemp`, heating →
`heatmintemp`/`heatmaxtemp`, otherwise `minTemp`/`maxTemp`); an absent
bound is not checked; a reported positive `temp_step` additionally
requires `(setpoint - min) % step` to vanish within `0.01`.
`current_mode = mode or self.mode`: an explicit mode of `0` (falsy) falls
back to the zone's own mode, like `None`. -/
def validate_setpoint (d : ZoneData) (setpoint : ℚ) (mode : Option Int) : Bool :=
  let current_mode : Int :=
    match mode with
    | some m => if m = 0 then d.mode.getD 0 else m
    | none => d.mode.getD 0
  let bounds : Option ℚ × Option ℚ :=
    if current_mode = 2 then (d.coolmintemp, d.coolmaxtemp)
    else if current_mode = 3 then (d.heatmintemp, d.heatmaxtemp)
    else (d.minTemp, d.maxTemp)
  if bounds.1.any (fun lo => decide (setpoint < lo)) then false
  else if bounds.2.any (fun hi => decide (hi < setpoint)) then false
  else
    match d.temp_step with
    | some step =>
      -- `if temp_step and temp_step > 0`
      if 0 < step then
        decide (|pyFmod (setpoint - bounds.1.getD 0) step| < 1/100)
      else true
    | none => true

/-- `AirzoneZone.validate_sleep_timer` (`src/airzone_client.py`). -/
def validate_sleep_timer (minutes : Int) : Bool :=
  decide (0 ≤ minutes ∧ minutes ≤ 1440)

/-- Rendering of an optional temperature bound in an f-string
(`None` when absent). -/
def renderOpt (q : Option ℚ) : String :=
  match q with
  | some x => toString x
  | none => "None"

/-- The mode-id → name table used in error messages. -/
def modeNameOf (m : Int) : String :=
  if m = 1 then "Stop"
  else if m = 2 then "Cooling"
  else if m = 3 then "Heating"
  else if m = 4 then "Ventilation"
  else if m = 5 then "Dehumidify"
  else "Unknown"

/-- Rendering of the available-modes list in the mode setter's message
(Python reprs each entry as `m(Name)`; the repr quotes are omitted). -/
def modesRender (l : List Int) : String :=
  "[" ++ String.intercalate ", " (l.map (fun m => toString m ++ "(" ++ modeNameOf m ++ ")")) ++ "]"

/-- Rendering of a list of integers in an f-string. -/
def intListRender (l : List Int) : String :=
  "[" ++ String.intercalate ", " (l.map toString) ++ "]"

/-- The `range_str` of the `setpoint` setter's message: the
mode-selected bound pair from `get_validation_info`. -/
def setpoint_range_str (d : ZoneData) : String :=
  let current_mode := d.mode.getD 0
  let lo : Option ℚ :=
    if current_mode = 2 then d.coolmintemp
    else if current_mode = 3 then d.heatmintemp
    else d.minTemp
  let hi : Option ℚ :=
    if current_mode = 2 then d.coolmaxtemp
    else if current_mode = 3 then d.heatmaxtemp
    else d.maxTemp
  renderOpt lo ++ "-" ++ renderOpt hi ++ "°C"

/-- The `step_str` of the `setpoint` setter's message (only the general
`temp_range` dict carries a `step` entry). -/
def setpoint_step_str (d : ZoneData) : String :=
  let current_mode := d.mode.getD 0
  let stepOpt : Option ℚ :=
    if current_mode = 2 || current_mode = 3 then none else d.temp_step
  match stepOpt with
  | some s => if s = 0 then "" else " (step: " ++ toString s ++ "°C)"
  | none => ""

/-- The `ValueError` message of the `setpoint` setter. -/
def setpoint_err_msg (d : ZoneData) (value : ℚ) : String :=
  "Setpoint " ++ toString value
    ++ ("°C is invalid. Valid range: " ++ (setpoint_range_str d ++ setpoint_step_str d))

/-- The `ValueError` message of the `mode` setter. -/
def mode_err_msg (d : ZoneData) (value : Int) : String :=
  "Mode " ++ toString value ++ (" not supported. Available modes: " ++ modesRender (d.modes.getD []))

/-- The `ValueError` message of the `fan_speed` setter. -/
def fan_speed_err_msg (d : ZoneData) (speed : Int) : String :=
  let available_speeds := d.speed_values.getD []
  if !available_speeds.isEmpty then
    "Fan speed " ++ toString speed ++ (" not available. Available speeds: " ++ intListRender available_speeds)
  else
    match d.speeds with
    | some max_speeds =>
      "Fan speed " ++ toString speed ++ (" invalid. Valid range: " ++ ("0-" ++ toString max_speeds))
    | none => "Fan speed " ++ toString speed ++ " invalid. No validation data available."

/-- The `ValueError` message of the `sleep_timer` setter. -/
def sleep_timer_err_msg (minutes : Int) : String :=
  "Sleep timer " ++ toString minutes
    ++ (" minutes is invalid. Valid range: " ++ ("0-1440" ++ " minutes (0-24 hours)"))

/-- The `setpoint` property setter: validate, else raise without writing;
on success write `{"setpoint": value}`, refresh, and patch the local
snapshot. -/
def setpoint_set (d : ZoneData) (value : ℚ) (refreshed : ZoneData) : SetOutcome :=
  if validate_setpoint d value none then
    { error := none, writes := [.setpointW value], data := { refreshed with setpoint := some value } }
  else
    { error := some (setpoint_err_msg d value), writes := [], data := d }

/-- The `mode` property setter (refresh only, no local patch). -/
def mode_set (d : ZoneData) (value : Int) (refreshed : ZoneData) : SetOutcome :=
  if validate_mode d value then
    { error := none, writes := [.modeW value], data := refreshed }
  else
    { error := some (mode_err_msg d value), writes := [], data := d }

/-- The `fan_speed` property setter. -/
def fan_speed_set (d : ZoneData) (speed : Int) (refreshed : ZoneData) : SetOutcome :=
  if validate_fan_speed d speed then
    { error := none, writes := [.speedW speed], data := { refreshed with speed := some speed } }
  else
    { error := some (fan_speed_err_msg d speed), writes := [], data := d }

/-- The `sleep_timer` property setter. -/
def sleep_timer_set (d : ZoneData) (minutes : Int) (refreshed : ZoneData) : SetOutcome :=
  if validate_sleep_timer minutes then
    { error := none, writes := [.sleepW minutes], data := { refreshed with sleep := some minutes } }
  else
    { error := some (sleep_timer_err_msg minutes), writes := [], data := d }

end airzone_client

/- `AirzoneZone` of `src/zone.py` (the split-module variant): its setters
patch the local snapshot directly, without a refresh. -/
namespace zone

/-- `AirzoneZone.validate_mode` (`src/zone.py`):
`not available_modes or mode in available_modes`. -/
def validate_mode (d : ZoneData) (mode : Int) : Bool :=
  let available_modes := d.modes.getD []
  available_modes.isEmpty || available_modes.contains mode

/-- `AirzoneZone.validate_temperature` (`src/zone.py`): the general
bounds with the 15/30 fallback, regardless of mode. -/
def validate_temperature (d : ZoneData) (temp : ℚ) : Bool :=
  decide (d.minTemp.getD 15 ≤ temp ∧ temp ≤ d.maxTemp.getD 30)

/-- The `mode` property setter (`src/zone.py`): validate, else raise
without writing; on success write and patch the local `mode`. -/
def mode_set (d : ZoneData) (value : Int) : SetOutcome :=
  if validate_mode d value then
    { error := none, writes := [.modeW value], data := { d with mode := some value } }
  else
    { error := some ("Mode " ++ toString value ++ (" not supported. Available: "
        ++ airzone_client.modesRender (d.modes.getD []))), writes := [], data := d }

end zone

/- `AirzoneBackup.validate_backup` (`src/airzone_backup.py`), operating
on the parsed JSON document. Python `in` on a non-container raises
`TypeError`; the broad `except` turns any raise into `False`. -/
namespace airzone_backup

/-- `a` begins with `needle`. -/
def charsStartWith : List Char → List Char → Bool
  | [], _ => true
  | _ :: _, [] => false
  | a :: as, b :: bs => a == b && charsStartWith as bs

/-- `needle` occurs inside `hay` (Python `in` on strings). -/
def charsHasInfix : List Char → List Char → Bool
  | needle, [] => needle.isEmpty
  | needle, c :: rest => charsStartWith needle (c :: rest) || charsHasInfix needle rest

/-- Python `s in container` for a string `s`: key membership on a dict,
element equality on a list, substring on a string; `TypeError` (modelled
as `.error`) on anything else. -/
def pyContains (container : Json) (s : String) : Except Unit Bool :=
  match container with
  | .obj fields => .ok (fields.any (fun kv => kv.1 == s))
  | .arr elems => .ok (elems.any (fun e => match e with | .str t => t == s | _ => false))
  | .str t => .ok (charsHasInfix s.toList t.toList)
  | _ => .error ()

/-- Python `container[s]`: dict indexing; `TypeError`/`KeyError`
(modelled as `.error`) otherwise. -/
def pyIndex (container : Json) (s : String) : Except Unit Json :=
  match container with
  | .obj fields =>
    match reqLookup fields s with
    | some v => .ok v
    | none => .error ()
  | _ => .error ()

/-- The `for key in required_keys` loop: `.ok false` as soon as a key is
missing. -/
def checkRequired : List String → Json → Except Unit Bool
  | [], _ => .ok true
  | k :: ks, j => do
    let present ← pyContains j k
    if present then checkRequired ks j else .ok false

/-- `AirzoneBackup.validate_backup` (`src/airzone_backup.py`): requires
the four top-level keys, `host` and `port` inside `metadata`, and a
`systems` member inside the `systems` section; any raise yields `False`. -/
def validate_backup (backup_data : Json) : Bool :=
  let result : Except Unit Bool := do
    let all_present ← checkRequired ["webserver", "systems", "zones", "metadata"] backup_data
    if !all_present then return false
    let metadata ← pyIndex backup_data "metadata"
    let host_ok ← pyContains metadata "host"
    let port_ok ← pyContains metadata "port"
    if !host_ok || !port_ok then return false
    let systems_section ← pyIndex backup_data "systems"
    let has_systems ← pyContains systems_section "systems"
    if !has_systems then return false
    return true
  match result with
  | .ok b => b
  | .error _ => false

end airzone_backup

/-! Concrete sample data for evaluating the theorems. -/

/-- An empty cache with the default 300 s max age. -/
def emptyCache : AirzoneCache := ⟨300, fun _ => none⟩

/-- A sample API response document. -/
def sampleDoc : Json := .obj [("systems", .arr [.obj [("systemID", .num 1)]])]

/-- A cache holding fresh entries for every key touched by a write to
zone 2 of system 1, and one unrelated key. -/
def sampleCacheFull : AirzoneCache :=
  ⟨300, fun k =>
    if k = "zone_1_2" || k = "system_1" || k = "systems" || k = "zones" || k = "version"
    then some (0, sampleDoc) else none⟩

/-- A caching client over `sampleCacheFull`. -/
def sampleClient : ClientState := ⟨true, sampleCacheFull⟩

/-- A zone reporting cooling bounds 18–26 and cooling mode. -/
def sampleCoolZone : ZoneData :=
  { coolmintemp := some 18, coolmaxtemp := some 26, mode := some 2 }

/-- A zone advertising modes 2 and 3. -/
def sampleModesZone : ZoneData := { modes := some [2, 3] }

/-- A zone with no reported metadata at all. -/
def emptyZone : ZoneData := {}

/-- A backup document with the four required sections and host/port
metadata, whose `systems` section has no `systems` member. -/
def sampleBareBackup : Json :=
  .obj [("webserver", .obj [("mac", .str "AA:BB")]),
        ("systems", .obj []),
        ("zones", .obj [("data", .arr [])]),
        ("metadata", .obj [("host", .str "192.168.1.100"), ("port", .num 3000)])]

/-- Like `sampleBareBackup`, with a `systems` member inside the `systems`
section. -/
def sampleRichBackup : Json :=
  .obj [("webserver", .obj [("mac", .str "AA:BB")]),
        ("systems", .obj [("systems", .arr [])]),
        ("zones", .obj [("data", .arr [])]),
        ("metadata", .obj [("host", .str "192.168.1.100"), ("port", .num 3000)])]

/-- Spec-side reading of the setpoint check against one bound pair: inside
the (optional) bounds, and aligned to a reported positive step within the
`0.01` tolerance. Stated from the spec's words, to be compared with
`airzone_client.validate_setpoint`. -/
def boundsStepCheck (lo hi step : Option ℚ) (t : ℚ) : Bool :=
  lo.all (fun l => decide (l ≤ t)) && hi.all (fun h => decide (t ≤ h)) &&
  (match step with
   | some s => if 0 < s then decide (|pyFmod (t - lo.getD 0) s| < 1/100) else true
   | none => true)

/-- `piece` occurs verbatim inside `msg` (the f-string interpolated it). -/
def containsPiece (msg piece : String) : Prop :=
  ∃ pre post : String, msg = pre ++ piece ++ post

/-! Shared lemmas about the cache store. -/

/-- Invalidation erases exactly the named key, whether or not it was
present. -/
theorem AirzoneCache.invalidate_get (c : AirzoneCache) (k : String) (now : Nat)
    (k' : String) :
    ((c.invalidate k).1).get now k' = if k' = k then none else c.get now k' := by
  by_cases hk : k' = k
  · subst hk
    cases h : c.store k' with
    | none => simp [AirzoneCache.invalidate, AirzoneCache.get, h]
    | some v => simp [AirzoneCache.invalidate, AirzoneCache.get, h]
  · cases h : c.store k with
    | none => simp [AirzoneCache.invalidate, AirzoneCache.get, h, hk]
    | some v => simp [AirzoneCache.invalidate, AirzoneCache.get, h, hk]

/-- Invalidation always reports success. -/
theorem AirzoneCache.invalidate_success (c : AirzoneCache) (k : String) :
    (c.invalidate k).2 = true := by
  cases h : c.store k with
  | none => simp [AirzoneCache.invalidate, h]
  | some v => simp [AirzoneCache.invalidate, h]

/-- C3. Cache round-trip: for every key `k` and document `v`, `set k v`
succeeds and a `get k` performed at any time within `max_age` of the set
returns exactly `v`. -/
theorem cache_round_trip (c : AirzoneCache) (now later : Nat) (k : String) (v : Json)
    (_horder : now ≤ later) (hfresh : later - now ≤ c.max_age) :
    (c.set now k v).2 = true ∧ ((c.set now k v).1).get later k = some v := by
  refine ⟨rfl, ?_⟩
  have h2 : ¬ (later - now > c.max_age) := by omega
  simp [AirzoneCache.set, AirzoneCache.get, h2]

/-- C3 witness: a concrete round-trip through the empty cache. -/
theorem cache_round_trip_witness :
    (emptyCache.set 10 "systems" sampleDoc).2 = true
    ∧ ((emptyCache.set 10 "systems" sampleDoc).1).get 100 "systems" = some sampleDoc :=
  cache_round_trip emptyCache 10 100 "systems" sampleDoc (by decide) (by decide)

/-- C4. Invalidation semantics: after `invalidate k` a `get k` misses at
every time, regardless of prior freshness; invalidating an absent key
still reports success; after `invalidate_all` every key misses. -/
theorem cache_invalidation_semantics (c : AirzoneCache) (k : String) (now : Nat) :
    ((c.invalidate k).1).get now k = none
    ∧ (c.store k = none → (c.invalidate k).2 = true)
    ∧ (∀ k', ((c.invalidate_all).1).get now k' = none) := by
  refine ⟨?_, fun _ => AirzoneCache.invalidate_success c k, fun k' => ?_⟩
  · rw [AirzoneCache.invalidate_get, if_pos rfl]
  · simp [AirzoneCache.invalidate_all, AirzoneCache.get]

/-- C4 witness: invalidating a fresh entry and an absent entry of
concrete caches. -/
theorem cache_invalidation_semantics_witness :
    ((sampleCacheFull.invalidate "systems").1).get 0 "systems" = none
    ∧ (emptyCache.invalidate "systems").2 = true
    ∧ ((sampleCacheFull.invalidate_all).1).get 0 "version" = none :=
  ⟨(cache_invalidation_semantics sampleCacheFull "systems" 0).1,
   (cache_invalidation_semantics emptyCache "systems" 0).2.1 rfl,
   (cache_invalidation_semantics sampleCacheFull "version" 0).2.2 "version"⟩

/-- A dict with no `systemID` key has no `(systemID, value)` item. -/
theorem patMem_systemID_false (d : ReqData) (n : Int)
    (h : reqMem d "systemID" = false) :
    patMem ("systemID", n) d = false := by
  simp only [patMem]
  simp only [reqMem, List.any_eq_false] at h ⊢
  intro kv hkv
  simp [h kv hkv]

/-- C1 counterexample: the claim's catch-all says every endpoint/shape
beyond the enumerated ones yields no key, but `("iaq", systemID s,
iaqsensorid i)` with a specific system derives `"iaq_sensor_s_i"`, and
`("iaq", systemID s)` derives `"iaq_system_s"`. -/
theorem cache_key_iaq_specific_cex :
    generate_cache_key "iaq" (some [("systemID", .num 3), ("iaqsensorid", .num 2)])
      = some "iaq_sensor_3_2"
    ∧ generate_cache_key "iaq" (some [("systemID", .num 3)]) = some "iaq_system_3" :=
  ⟨rfl, rfl⟩

/-- C1 (amended). Cache-key derivation: `("hvac", systemID 127)` (with or
without a zone) derives `"systems"`; `("hvac", systemID 0, zoneID 0)`
derives `"zones"`; a specific system and zone derive `"zone_s_z"`; a
specific system alone derives `"system_s"`; `version`/`webserver` derive
their own names for every body; `("iaq", systemID 127, …)` derives
`"iaq_sensors"`, a specific system and sensor derive `"iaq_sensor_s_i"`,
and a specific system alone derives `"iaq_system_s"`; an endpoint other
than the four, or an `hvac`/`iaq` body lacking a `systemID` (or missing
entirely), derives no key. -/
theorem cache_key_derivation :
    (∀ z : Int, generate_cache_key "hvac" (some [("systemID", .num 127), ("zoneID", .num z)])
      = some "systems")
    ∧ generate_cache_key "hvac" (some [("systemID", .num 127)]) = some "systems"
    ∧ generate_cache_key "hvac" (some [("systemID", .num 0), ("zoneID", .num 0)]) = some "zones"
    ∧ (∀ s z : Int, s ≠ 0 → s ≠ 127 →
        generate_cache_key "hvac" (some [("systemID", .num s), ("zoneID", .num z)])
          = some ("zone_" ++ toString s ++ "_" ++ toString z))
    ∧ (∀ s : Int, s ≠ 127 →
        generate_cache_key "hvac" (some [("systemID", .num s)])
          = some ("system_" ++ toString s))
    ∧ (∀ d, generate_cache_key "version" d = some "version")
    ∧ (∀ d, generate_cache_key "webserver" d = some "webserver")
    ∧ (∀ extras : ReqData,
        generate_cache_key "iaq" (some (("systemID", .num 127) :: extras)) = some "iaq_sensors")
    ∧ (∀ s i : Int, s ≠ 127 →
        generate_cache_key "iaq" (some [("systemID", .num s), ("iaqsensorid", .num i)])
          = some ("iaq_sensor_" ++ toString s ++ "_" ++ toString i))
    ∧ (∀ s : Int, s ≠ 127 →
        generate_cache_key "iaq" (some [("systemID", .num s)])
          = some ("iaq_system_" ++ toString s))
    ∧ (∀ e d, e ≠ "hvac" → e ≠ "iaq" → e ≠ "version" → e ≠ "webserver" →
        generate_cache_key e d = none)
    ∧ (∀ d : ReqData, reqMem d "systemID" = false →
        generate_cache_key "hvac" (some d) = none
        ∧ generate_cache_key "iaq" (some d) = none)
    ∧ (generate_cache_key "hvac" none = none ∧ generate_cache_key "iaq" none = none) := by
  refine ⟨fun z => ?_, rfl, rfl, fun s z hs0 hs127 => ?_,
    fun s hs127 => ?_, fun d => ?_, fun d => ?_, fun extras => ?_,
    fun s i hs127 => ?_, fun s hs127 => ?_, fun e d h1 h2 h3 h4 => ?_,
    fun d hmem => ⟨?_, ?_⟩, ⟨rfl, rfl⟩⟩
  · simp [generate_cache_key, itemsEq, pairMem, patMem, reqMem, reqLookup, Json.eqNum]
  · have hb0 : (s == (0 : Int)) = false := by simpa using hs0
    have hb127 : (s == (127 : Int)) = false := by simpa using hs127
    simp [generate_cache_key, itemsEq, pairMem, patMem, reqMem, reqLookup, Json.eqNum,
      Json.render, hb0, hb127]
  · have hb127 : (s == (127 : Int)) = false := by simpa using hs127
    simp [generate_cache_key, itemsEq, pairMem, patMem, reqMem, reqLookup, Json.eqNum,
      Json.render, hb127]
  · rcases d with _ | d
    · rfl
    · rcases d with _ | ⟨kv, rest⟩
      · rfl
      · simp [generate_cache_key]
  · rcases d with _ | d
    · rfl
    · rcases d with _ | ⟨kv, rest⟩
      · rfl
      · simp [generate_cache_key]
  · simp [generate_cache_key, itemsEq, pairMem, patMem, reqMem, reqLookup, Json.eqNum]
    split_ifs <;> rfl
  · have hb127 : (s == (127 : Int)) = false := by simpa using hs127
    simp [generate_cache_key, itemsEq, pairMem, patMem, reqMem, reqLookup, Json.eqNum,
      Json.render, hb127]
  · have hb127 : (s == (127 : Int)) = false := by simpa using hs127
    simp [generate_cache_key, itemsEq, pairMem, patMem, reqMem, reqLookup, Json.eqNum,
      Json.render, hb127]
  · rcases d with _ | d
    · simp [generate_cache_key, h1, h2, h3, h4]
    · rcases d with _ | ⟨kv, rest⟩
      · simp [generate_cache_key, h1, h2, h3, h4]
      · simp [generate_cache_key, h1, h2, h3, h4]
  · have h127 := patMem_systemID_false d 127 hmem
    have h0 := patMem_systemID_false d 0 hmem
    by_cases hde : d.isEmpty
    · simp [generate_cache_key, hde]
    · simp [generate_cache_key, itemsEq, hde, hmem, h127, h0]
  · have h127 := patMem_systemID_false d 127 hmem
    by_cases hde : d.isEmpty
    · simp [generate_cache_key, hde]
    · simp [generate_cache_key, itemsEq, hde, hmem, h127]

/-- C1 witness: the derivation at the spec's concrete request shapes. -/
theorem cache_key_derivation_witness :
    generate_cache_key "hvac" (some [("systemID", .num 127), ("zoneID", .num 4)]) = some "systems"
    ∧ generate_cache_key "hvac" (some [("systemID", .num 3), ("zoneID", .num 2)]) = some "zone_3_2"
    ∧ generate_cache_key "hvac" (some [("systemID", .num 3)]) = some "system_3"
    ∧ generate_cache_key "version" (some [("x", .num 1)]) = some "version"
    ∧ generate_cache_key "webserver" none = some "webserver"
    ∧ generate_cache_key "iaq" (some [("systemID", .num 127), ("iaqsensorid", .num 1)])
        = some "iaq_sensors"
    ∧ generate_cache_key "iaq" (some [("systemID", .num 2), ("iaqsensorid", .num 5)])
        = some "iaq_sensor_2_5"
    ∧ generate_cache_key "iaq" (some [("systemID", .num 2)]) = some "iaq_system_2"
    ∧ generate_cache_key "demo" none = none
    ∧ generate_cache_key "hvac" (some [("zoneID", .num 1)]) = none :=
  ⟨cache_key_derivation.1 4,
   cache_key_derivation.2.2.2.1 3 2 (by decide) (by decide),
   cache_key_derivation.2.2.2.2.1 3 (by decide),
   cache_key_derivation.2.2.2.2.2.1 (some [("x", .num 1)]),
   cache_key_derivation.2.2.2.2.2.2.1 none,
   cache_key_derivation.2.2.2.2.2.2.2.1 [("iaqsensorid", .num 1)],
   cache_key_derivation.2.2.2.2.2.2.2.2.1 2 5 (by decide),
   cache_key_derivation.2.2.2.2.2.2.2.2.2.1 2 (by decide),
   cache_key_derivation.2.2.2.2.2.2.2.2.2.2.1 "demo" none
     (by decide) (by decide) (by decide) (by decide),
   (cache_key_derivation.2.2.2.2.2.2.2.2.2.2.2.1 [("zoneID", .num 1)] rfl).1⟩

/-- C2. Write-invalidation: on a successful zone write through a caching
client, the response is returned and the zone's own key, its system's
key, and both aggregate keys all miss afterwards, at every query time. -/
theorem zone_write_invalidates_cache (st : ClientState) (now later : Nat)
    (system_id zone_id : Int) (parameters : ReqData) (body : Json)
    (hc : st.use_cache = true) :
    (set_zone_parameters st now system_id zone_id parameters (.response 200 body)).1 = .ok body
    ∧ ((set_zone_parameters st now system_id zone_id parameters (.response 200 body)).2).cache.get
        later ("zone_" ++ toString system_id ++ "_" ++ toString zone_id) = none
    ∧ ((set_zone_parameters st now system_id zone_id parameters (.response 200 body)).2).cache.get
        later ("system_" ++ toString system_id) = none
    ∧ ((set_zone_parameters st now system_id zone_id parameters (.response 200 body)).2).cache.get
        later "systems" = none
    ∧ ((set_zone_parameters st now system_id zone_id parameters (.response 200 body)).2).cache.get
        later "zones" = none := by
  have hpair : set_zone_parameters st now system_id zone_id parameters (.response 200 body)
      = (.ok body,
         { st with cache := ((((st.cache.invalidate
             ("zone_" ++ toString system_id ++ "_" ++ toString zone_id)).1.invalidate
             ("system_" ++ toString system_id)).1.invalidate "systems").1.invalidate "zones").1 }) := by
    simp [set_zone_parameters, make_api_call, hc]
  rw [hpair]
  refine ⟨rfl, ?_, ?_, ?_, ?_⟩ <;>
    · simp only [AirzoneCache.invalidate_get]
      split_ifs <;> simp_all

/-- C2 witness: writing to zone 2 of system 1 on a client whose cache
holds all four affected keys fresh; each misses afterwards. -/
theorem zone_write_invalidates_cache_witness :
    sampleClient.cache.get 0 "zone_1_2" = some sampleDoc
    ∧ sampleClient.cache.get 0 "systems" = some sampleDoc
    ∧ ((set_zone_parameters sampleClient 0 1 2 [("on", .num 1)]
          (.response 200 sampleDoc)).2).cache.get 0 "zone_1_2" = none
    ∧ ((set_zone_parameters sampleClient 0 1 2 [("on", .num 1)]
          (.response 200 sampleDoc)).2).cache.get 0 "system_1" = none
    ∧ ((set_zone_parameters sampleClient 0 1 2 [("on", .num 1)]
          (.response 200 sampleDoc)).2).cache.get 0 "systems" = none
    ∧ ((set_zone_parameters sampleClient 0 1 2 [("on", .num 1)]
          (.response 200 sampleDoc)).2).cache.get 0 "zones" = none := by
  have h := zone_write_invalidates_cache sampleClient 0 0 1 2 [("on", .num 1)] sampleDoc rfl
  exact ⟨rfl, rfl, h.2.1, h.2.2.1, h.2.2.2.1, h.2.2.2.2⟩

/-- C10. Write-failure atomicity: a non-200 status or a transport
exception in a zone or IAQ write propagates as an error, the client state
(cache included) is exactly the state before the call, and every cache
lookup afterwards agrees with the lookup before. -/
theorem write_failure_preserves_cache (st : ClientState) (now : Nat)
    (system_id zone_id sensor_id : Int) (parameters : ReqData) :
    (∀ status body, status ≠ 200 →
      set_zone_parameters st now system_id zone_id parameters (.response status body)
        = (.error ("Error: Status code " ++ toString status), st))
    ∧ (∀ msg, set_zone_parameters st now system_id zone_id parameters (.transportFailure msg)
        = (.error msg, st))
    ∧ (∀ status body later k, status ≠ 200 →
        ((set_zone_parameters st now system_id zone_id parameters
            (.response status body)).2).cache.get later k = st.cache.get later k)
    ∧ (∀ status body, status ≠ 200 →
      set_iaq_parameters st now system_id sensor_id parameters (.response status body)
        = (.error ("Error: Status code " ++ toString status), st))
    ∧ (∀ msg, set_iaq_parameters st now system_id sensor_id parameters (.transportFailure msg)
        = (.error msg, st)) := by
  refine ⟨fun status body h => ?_, fun msg => ?_, fun status body later k h => ?_,
    fun status body h => ?_, fun msg => ?_⟩
  · simp [set_zone_parameters, make_api_call, h]
  · simp [set_zone_parameters, make_api_call]
  · simp [set_zone_parameters, make_api_call, h]
  · simp [set_iaq_parameters, make_api_call, h]
  · simp [set_iaq_parameters, make_api_call]

/-- C10 witness: a 500 response and a transport exception against a
client holding fresh entries leave it untouched. -/
theorem write_failure_preserves_cache_witness :
    set_zone_parameters sampleClient 0 1 2 [("on", .num 1)] (.response 500 sampleDoc)
      = (.error ("Error: Status code " ++ toString 500), sampleClient)
    ∧ set_zone_parameters sampleClient 0 1 2 [("on", .num 1)] (.transportFailure "connection refused")
      = (.error "connection refused", sampleClient)
    ∧ ((set_zone_parameters sampleClient 0 1 2 [("on", .num 1)]
          (.response 500 sampleDoc)).2).cache.get 0 "zone_1_2"
        = sampleClient.cache.get 0 "zone_1_2"
    ∧ set_iaq_parameters sampleClient 0 1 3 [("iaq_mode_vent", .num 1)] (.response 500 sampleDoc)
      = (.error ("Error: Status code " ++ toString 500), sampleClient) := by
  have h := write_failure_preserves_cache sampleClient 0 1 2 3 [("on", .num 1)]
  have h2 := write_failure_preserves_cache sampleClient 0 1 2 3 [("iaq_mode_vent", .num 1)]
  exact ⟨h.1 500 sampleDoc (by decide), h.2.1 "connection refused",
    h.2.2.1 500 sampleDoc 0 "zone_1_2" (by decide), h2.2.2.2.1 500 sampleDoc (by decide)⟩

/-- C5. Setpoint validation in cooling mode: a zone with
`coolmintemp=18, coolmaxtemp=26, mode=2` rejects setpoint 17 (the setter
raises, issues no write, and leaves the snapshot alone) and accepts
setpoint 20 (the write is issued) — the cooling bound pair is the one
selected in mode 2. -/
theorem setpoint_validation_cooling_bounds :
    airzone_client.validate_setpoint sampleCoolZone 17 none = false
    ∧ airzone_client.validate_setpoint sampleCoolZone 20 none = true
    ∧ (∀ refreshed, ((airzone_client.setpoint_set sampleCoolZone 17 refreshed).error).isSome = true
        ∧ (airzone_client.setpoint_set sampleCoolZone 17 refreshed).writes = []
        ∧ (airzone_client.setpoint_set sampleCoolZone 17 refreshed).data = sampleCoolZone)
    ∧ (∀ refreshed, (airzone_client.setpoint_set sampleCoolZone 20 refreshed).error = none
        ∧ (airzone_client.setpoint_set sampleCoolZone 20 refreshed).writes = [.setpointW 20]) :=
  ⟨by decide, by decide, fun refreshed => ⟨rfl, rfl, rfl⟩,
   fun refreshed => ⟨rfl, rfl⟩⟩

/-- C7. Mode validation is fail-open: with `modes=[2,3]`, mode 4 is
rejected by the setter (no write, snapshot unchanged) and mode 3 is
accepted and written; with no `modes` key, or an empty `modes` list,
every mode passes validation and the write is accepted. -/
theorem mode_validation_fail_open :
    zone.validate_mode sampleModesZone 4 = false
    ∧ ((zone.mode_set sampleModesZone 4).error).isSome = true
    ∧ (zone.mode_set sampleModesZone 4).writes = []
    ∧ (zone.mode_set sampleModesZone 4).data = sampleModesZone
    ∧ zone.validate_mode sampleModesZone 3 = true
    ∧ (zone.mode_set sampleModesZone 3).error = none
    ∧ (zone.mode_set sampleModesZone 3).writes = [.modeW 3]
    ∧ ((zone.mode_set sampleModesZone 3).data).mode = some 3
    ∧ (∀ m : Int, zone.validate_mode emptyZone m = true
        ∧ (zone.mode_set emptyZone m).error = none
        ∧ (zone.mode_set emptyZone m).writes = [.modeW m])
    ∧ (∀ m : Int, zone.validate_mode { modes := some [] } m = true
        ∧ (zone.mode_set { modes := some [] } m).error = none
        ∧ (zone.mode_set { modes := some [] } m).writes = [.modeW m]) :=
  ⟨by decide, by decide, by decide, rfl, by decide, by decide, by decide, rfl,
   fun m => ⟨rfl, rfl, rfl⟩, fun m => ⟨rfl, rfl, rfl⟩⟩

/-- The early-return bound/step chain of `validate_setpoint` agrees with
the conjunctive reading `boundsStepCheck` for any one bound pair. -/
theorem validate_chain_eq_boundsStepCheck (lo hi step : Option ℚ) (t : ℚ) :
    (if lo.any (fun l => decide (t < l)) then false
     else if hi.any (fun h => decide (h < t)) then false
     else match step with
       | some s => if 0 < s then decide (|pyFmod (t - lo.getD 0) s| < 1/100) else true
       | none => true)
    = boundsStepCheck lo hi step t := by
  rcases lo with _ | l <;> rcases hi with _ | h <;>
    simp only [boundsStepCheck, Option.any, Option.all, Option.getD]
  · simp
  · by_cases h2 : h < t
    · simp [h2, not_le_of_lt h2]
    · simp [h2, le_of_not_lt h2]
  · by_cases h1 : t < l
    · simp [h1, not_le_of_lt h1]
    · simp [h1, le_of_not_lt h1]
  · by_cases h1 : t < l
    · simp [h1, not_le_of_lt h1]
    · by_cases h2 : h < t
      · simp [h1, h2, le_of_not_lt h1, not_le_of_lt h2]
      · simp [h1, h2, le_of_not_lt h1, le_of_not_lt h2]

/-- C6 counterexample: a zone reporting no bounds at all accepts
setpoint 100 in `validate_setpoint` (so general bounds do NOT default to
the 15–30 fallback there); the 15–30 fallback is `validate_temperature`
of `src/zone.py`, which rejects 100. -/
theorem validate_setpoint_no_fallback_cex :
    airzone_client.validate_setpoint emptyZone 100 none = true
    ∧ zone.validate_temperature emptyZone 100 = false := by decide

/-- C6 (amended). `validate_setpoint` selects the bound pair by the
explicit mode (cooling for 2, heating for 3, the general bounds for any
other nonzero mode), checks only the bounds that are present, and adds
the step-alignment check for a reported positive step; when the general
bounds and step are all unreported it accepts every value (no fallback);
the 15–30 device-independent fallback belongs to `validate_temperature`
of `src/zone.py`, which ignores the mode. -/
theorem validate_setpoint_mode_selection :
    (∀ (d : ZoneData) (t : ℚ), airzone_client.validate_setpoint d t (some 2)
        = boundsStepCheck d.coolmintemp d.coolmaxtemp d.temp_step t)
    ∧ (∀ (d : ZoneData) (t : ℚ), airzone_client.validate_setpoint d t (some 3)
        = boundsStepCheck d.heatmintemp d.heatmaxtemp d.temp_step t)
    ∧ (∀ (d : ZoneData) (t : ℚ) (m : Int), m ≠ 0 → m ≠ 2 → m ≠ 3 →
        airzone_client.validate_setpoint d t (some m)
          = boundsStepCheck d.minTemp d.maxTemp d.temp_step t)
    ∧ (∀ (d : ZoneData) (t : ℚ) (m : Int), m ≠ 0 → m ≠ 2 → m ≠ 3 →
        d.minTemp = none → d.maxTemp = none → d.temp_step = none →
        airzone_client.validate_setpoint d t (some m) = true)
    ∧ (∀ (d : ZoneData) (t : ℚ), d.minTemp = none → d.maxTemp = none →
        zone.validate_temperature d t = decide (15 ≤ t ∧ t ≤ 30)) := by
  have hsel : ∀ (d : ZoneData) (t : ℚ) (m : Int), m ≠ 0 → m ≠ 2 → m ≠ 3 →
      airzone_client.validate_setpoint d t (some m)
        = boundsStepCheck d.minTemp d.maxTemp d.temp_step t := by
    intro d t m hm0 hm2 hm3
    simp only [airzone_client.validate_setpoint, if_neg hm0, if_neg hm2, if_neg hm3]
    exact validate_chain_eq_boundsStepCheck d.minTemp d.maxTemp d.temp_step t
  refine ⟨fun d t => ?_, fun d t => ?_, hsel, fun d t m hm0 hm2 hm3 h1 h2 h3 => ?_,
    fun d t h1 h2 => ?_⟩
  · exact validate_chain_eq_boundsStepCheck d.coolmintemp d.coolmaxtemp d.temp_step t
  · exact validate_chain_eq_boundsStepCheck d.heatmintemp d.heatmaxtemp d.temp_step t
  · rw [hsel d t m hm0 hm2 hm3, h1, h2, h3]; rfl
  · simp [zone.validate_temperature, h1, h2]

/-- C6 witness: the amended characterization evaluated on concrete
zones — cooling bounds picked in mode 2, general no-bounds acceptance in
mode 4, and the 15–30 fallback in `validate_temperature`. -/
theorem validate_setpoint_mode_selection_witness :
    airzone_client.validate_setpoint sampleCoolZone 17 (some 2)
      = boundsStepCheck (some 18) (some 26) none 17
    ∧ airzone_client.validate_setpoint emptyZone 100 (some 4) = true
    ∧ zone.validate_temperature emptyZone 100 = decide ((15:ℚ) ≤ 100 ∧ (100:ℚ) ≤ 30) :=
  ⟨validate_setpoint_mode_selection.1 sampleCoolZone 17,
   validate_setpoint_mode_selection.2.2.2.1 emptyZone 100 4
     (by decide) (by decide) (by decide) rfl rfl rfl,
   validate_setpoint_mode_selection.2.2.2.2 emptyZone 100 rfl rfl⟩

/-- A key that `reqLookup` misses is not a member of the dict. -/
theorem reqLookup_none_any (fields : ReqData) (s : String)
    (h : reqLookup fields s = none) :
    (fields.any (fun kv => kv.1 == s)) = false := by
  induction fields with
  | nil => rfl
  | cons kv rest ih =>
    rcases kv with ⟨k, v⟩
    by_cases hk : k = s
    · simp [reqLookup, hk] at h
    · rw [reqLookup, if_neg hk] at h
      simp [List.any_cons, hk, ih h]

/-- C8 counterexample: a backup document holding all four required
top-level sections plus `metadata.host` and `metadata.port` — which the
claim says must be reported valid — is reported invalid, because
`validate_backup` additionally demands a `systems` member inside the
`systems` section. -/
theorem validate_backup_four_keys_cex :
    airzone_backup.checkRequired ["webserver", "systems", "zones", "metadata"] sampleBareBackup
      = .ok true
    ∧ airzone_backup.pyIndex sampleBareBackup "metadata"
      = .ok (.obj [("host", .str "192.168.1.100"), ("port", .num 3000)])
    ∧ airzone_backup.validate_backup sampleBareBackup = false := ⟨rfl, rfl, rfl⟩

/-- C8 (amended). `validate_backup` reports invalid whenever the `zones`
top-level key is missing, and reports valid exactly when the four
required keys are present, `metadata` has `host` and `port` members, and
the `systems` section itself contains a `systems` member. -/
theorem validate_backup_characterization :
    (∀ fields : List (String × Json), reqLookup fields "zones" = none →
      airzone_backup.validate_backup (.obj fields) = false)
    ∧ (∀ j md sys : Json,
        airzone_backup.pyContains j "webserver" = .ok true →
        airzone_backup.pyContains j "systems" = .ok true →
        airzone_backup.pyContains j "zones" = .ok true →
        airzone_backup.pyContains j "metadata" = .ok true →
        airzone_backup.pyIndex j "metadata" = .ok md →
        airzone_backup.pyContains md "host" = .ok true →
        airzone_backup.pyContains md "port" = .ok true →
        airzone_backup.pyIndex j "systems" = .ok sys →
        airzone_backup.pyContains sys "systems" = .ok true →
        airzone_backup.validate_backup j = true) := by
  constructor
  · intro fields hnone
    have hz := reqLookup_none_any fields "zones" hnone
    simp only [airzone_backup.validate_backup, airzone_backup.checkRequired,
      airzone_backup.pyContains, hz, Bind.bind, Except.bind]
    split_ifs <;> first | rfl | contradiction
  · intro j md sys h1 h2 h3 h4 h5 h6 h7 h8 h9
    simp only [airzone_backup.validate_backup, airzone_backup.checkRequired,
      h1, h2, h3, h4, h5, h6, h7, h8, h9, Bind.bind, Except.bind]
    rfl

/-- C8 witness for the amended claim: a document with no `zones` key is
invalid; a document with the four keys, host/port metadata and a
`systems` member inside its `systems` section is valid. -/
theorem validate_backup_characterization_witness :
    airzone_backup.validate_backup
      (.obj [("webserver", .obj []), ("systems", .obj []), ("metadata", .obj [])]) = false
    ∧ airzone_backup.validate_backup sampleRichBackup = true :=
  ⟨validate_backup_characterization.1
     [("webserver", .obj []), ("systems", .obj []), ("metadata", .obj [])] rfl,
   validate_backup_characterization.2 sampleRichBackup
     (.obj [("host", .str "192.168.1.100"), ("port", .num 3000)])
     (.obj [("systems", .arr [])])
     rfl rfl rfl rfl rfl rfl rfl rfl rfl⟩

/-- C9. Every validated setter (setpoint, mode, fan speed, sleep timer)
on a failed validation raises a `ValueError` whose message carries the
offending value and the valid range/set, issues no write to the client,
and leaves the zone's local snapshot untouched (never clamps). -/
theorem setter_validation_failure_blocks_write :
    (∀ (d : ZoneData) (v : ℚ) (refreshed : ZoneData),
      airzone_client.validate_setpoint d v none = false →
      airzone_client.setpoint_set d v refreshed
          = { error := some (airzone_client.setpoint_err_msg d v), writes := [], data := d }
        ∧ containsPiece (airzone_client.setpoint_err_msg d v) (toString v)
        ∧ containsPiece (airzone_client.setpoint_err_msg d v)
            (airzone_client.setpoint_range_str d))
    ∧ (∀ (d : ZoneData) (m : Int) (refreshed : ZoneData),
      airzone_client.validate_mode d m = false →
      airzone_client.mode_set d m refreshed
          = { error := some (airzone_client.mode_err_msg d m), writes := [], data := d }
        ∧ containsPiece (airzone_client.mode_err_msg d m) (toString m)
        ∧ containsPiece (airzone_client.mode_err_msg d m)
            (airzone_client.modesRender (d.modes.getD [])))
    ∧ (∀ (d : ZoneData) (s : Int) (refreshed : ZoneData),
      airzone_client.validate_fan_speed d s = false →
      airzone_client.fan_speed_set d s refreshed
          = { error := some (airzone_client.fan_speed_err_msg d s), writes := [], data := d }
        ∧ containsPiece (airzone_client.fan_speed_err_msg d s) (toString s)
        ∧ (containsPiece (airzone_client.fan_speed_err_msg d s)
              (airzone_client.intListRender (d.speed_values.getD []))
            ∨ ∃ mx, d.speeds = some mx
              ∧ containsPiece (airzone_client.fan_speed_err_msg d s) ("0-" ++ toString mx)))
    ∧ (∀ (d : ZoneData) (n : Int) (refreshed : ZoneData),
      airzone_client.validate_sleep_timer n = false →
      airzone_client.sleep_timer_set d n refreshed
          = { error := some (airzone_client.sleep_timer_err_msg n), writes := [], data := d }
        ∧ containsPiece (airzone_client.sleep_timer_err_msg n) (toString n)
        ∧ containsPiece (airzone_client.sleep_timer_err_msg n) "0-1440") := by
  refine ⟨fun d v refreshed h => ⟨?_, ?_, ?_⟩, fun d m refreshed h => ⟨?_, ?_, ?_⟩,
    fun d s refreshed h => ⟨?_, ?_, ?_⟩, fun d n refreshed h => ⟨?_, ?_, ?_⟩⟩
  · simp [airzone_client.setpoint_set, h]
  · exact ⟨"Setpoint ", _, rfl⟩
  · exact ⟨"Setpoint " ++ toString v ++ "°C is invalid. Valid range: ",
      airzone_client.setpoint_step_str d,
      by simp [airzone_client.setpoint_err_msg, String.append_assoc]⟩
  · simp [airzone_client.mode_set, h]
  · exact ⟨"Mode ", _, rfl⟩
  · exact ⟨"Mode " ++ toString m ++ " not supported. Available modes: ", "",
      by simp [airzone_client.mode_err_msg, String.append_assoc, String.append_empty]⟩
  · simp [airzone_client.fan_speed_set, h]
  · by_cases hav : (d.speed_values.getD []).isEmpty
    · rcases hsp : d.speeds with _ | mx
      · exfalso
        rw [airzone_client.validate_fan_speed, hav, hsp] at h
        simp at h
      · exact ⟨"Fan speed ",
          " invalid. Valid range: " ++ ("0-" ++ toString mx),
          by simp [airzone_client.fan_speed_err_msg, hav, hsp]⟩
    · exact ⟨"Fan speed ",
        " not available. Available speeds: "
          ++ airzone_client.intListRender (d.speed_values.getD []),
        by simp [airzone_client.fan_speed_err_msg, hav]⟩
  · by_cases hav : (d.speed_values.getD []).isEmpty
    · rcases hsp : d.speeds with _ | mx
      · exfalso
        rw [airzone_client.validate_fan_speed, hav, hsp] at h
        simp at h
      · refine .inr ⟨mx, rfl, ⟨"Fan speed " ++ toString s ++ " invalid. Valid range: ", "",
          ?_⟩⟩
        simp [airzone_client.fan_speed_err_msg, hav, hsp, String.append_assoc,
          String.append_empty]
    · exact .inl ⟨"Fan speed " ++ toString s ++ " not available. Available speeds: ", "",
        by simp [airzone_client.fan_speed_err_msg, hav, String.append_assoc,
          String.append_empty]⟩
  · simp [airzone_client.sleep_timer_set, h]
  · exact ⟨"Sleep timer ", _, rfl⟩
  · exact ⟨"Sleep timer " ++ toString n ++ " minutes is invalid. Valid range: ",
      " minutes (0-24 hours)",
      by simp [airzone_client.sleep_timer_err_msg, String.append_assoc]⟩

/-- C9 witness: each of the four setters rejecting a concrete invalid
value on a concrete zone. -/
theorem setter_validation_failure_blocks_write_witness :
    (airzone_client.setpoint_set sampleCoolZone 17 emptyZone
        = { error := some (airzone_client.setpoint_err_msg sampleCoolZone 17),
            writes := [], data := sampleCoolZone }
      ∧ containsPiece (airzone_client.setpoint_err_msg sampleCoolZone 17) (toString (17 : ℚ)))
    ∧ (airzone_client.mode_set sampleModesZone 4 emptyZone
        = { error := some (airzone_client.mode_err_msg sampleModesZone 4),
            writes := [], data := sampleModesZone }
      ∧ containsPiece (airzone_client.mode_err_msg sampleModesZone 4) (toString (4 : Int)))
    ∧ (airzone_client.fan_speed_set { speeds := some 5 } 9 emptyZone
        = { error := some (airzone_client.fan_speed_err_msg { speeds := some 5 } 9),
            writes := [], data := { speeds := some 5 } })
    ∧ (airzone_client.sleep_timer_set emptyZone 1441 emptyZone
        = { error := some (airzone_client.sleep_timer_err_msg 1441),
            writes := [], data := emptyZone }
      ∧ containsPiece (airzone_client.sleep_timer_err_msg 1441) "0-1440") := by
  have h := setter_validation_failure_blocks_write
  exact ⟨⟨(h.1 sampleCoolZone 17 emptyZone (by decide)).1,
          (h.1 sampleCoolZone 17 emptyZone (by decide)).2.1⟩,
    ⟨(h.2.1 sampleModesZone 4 emptyZone (by decide)).1,
     (h.2.1 sampleModesZone 4 emptyZone (by decide)).2.1⟩,
    (h.2.2.1 { speeds := some 5 } 9 emptyZone (by decide)).1,
    ⟨(h.2.2.2 emptyZone 1441 emptyZone (by decide)).1,
     (h.2.2.2 emptyZone 1441 emptyZone (by decide)).2.2⟩⟩

end Airzone
